import Mathlib

/-!
Verification of the MemHeav medication-tracking backend.

The data model follows `src/schema.ts` (Drizzle table definitions and the
zod validation schemas derived from them), and the route handlers follow
`src/routes.ts`. The persistence gateway (`storage`) is not part of the
source tree; its operations are modelled from the spec as plain CRUD over
an in-memory relational state (spec sections 2, 4.3 and 4.4). Session
authentication (`ensureAuthenticated` / `req.isAuthenticated`) is modelled
as an `Option Nat` holding the authenticated user's id.

Timestamps are modelled as `Nat`; zod's `.email()` regex is abstracted to
a decidable check used only as a validation gate.
-/

namespace MemHeav

/-- Row of the `medications` table (`src/schema.ts` lines 32-42). -/
structure Medication where
  id : Nat
  userId : Nat
  name : String
  dosage : String
  frequency : String
  startTime : Nat
  notes : Option String
  active : Bool
deriving Repr, DecidableEq

/-- Row of the `medication_reminders` table (`src/schema.ts` lines 45-52). -/
structure MedicationReminder where
  id : Nat
  medicationId : Nat
  reminderTime : Nat
  taken : Bool
  takenAt : Option Nat
  skipped : Bool
deriving Repr, DecidableEq

/-- Row of the `caregivers` table (`src/schema.ts` lines 55-64). -/
structure Caregiver where
  id : Nat
  username : String
  password : String
  fullName : String
  phone : Option String
  email : String
  relation : Option String
deriving Repr, DecidableEq

/-- Row of the `user_caregivers` join table (`src/schema.ts` lines 67-74). -/
structure UserCaregiver where
  id : Nat
  userId : Nat
  caregiverId : Nat
  accessLevel : String
  active : Bool
deriving Repr, DecidableEq

/-- Modelled from the spec: the relational store behind the `storage`
persistence gateway (spec section 2), which is not part of `src/`.
Auto-increment ids are tracked per table. -/
structure Storage where
  medications : List Medication
  reminders : List MedicationReminder
  caregivers : List Caregiver
  userCaregivers : List UserCaregiver
  nextMedicationId : Nat
  nextCaregiverId : Nat
  nextUserCaregiverId : Nat
deriving Repr, DecidableEq

/-- Replace every element satisfying `p` by `b` (helper for row updates). -/
def updateWhere {α : Type} (p : α → Bool) (b : α) (l : List α) : List α :=
  l.map (fun x => if p x then b else x)

/-- Modelled from the spec: `storage.getMedication(id)` looks the row up
by primary key. -/
def Storage.getMedication (s : Storage) (id : Nat) : Option Medication :=
  s.medications.find? (fun m => m.id == id)

/-- Modelled from the spec: `storage.getCaregiverByUsername(username)`. -/
def Storage.getCaregiverByUsername (s : Storage) (u : String) : Option Caregiver :=
  s.caregivers.find? (fun c => c.username == u)

/-- Modelled from the spec: `storage.getMedicationReminders(medicationId)`. -/
def Storage.getMedicationReminders (s : Storage) (medicationId : Nat) :
    List MedicationReminder :=
  s.reminders.filter (fun r => r.medicationId == medicationId)

/-- Validated insert payload for a medication: output of
`medicationFormSchema.parse` (`src/schema.ts` lines 77-80, 98-101).
`active` keeps its column default when absent. -/
structure InsertMedication where
  userId : Nat
  name : String
  dosage : String
  frequency : String
  startTime : Nat
  notes : Option String
  active : Option Bool
deriving Repr, DecidableEq

/-- Modelled from the spec: `storage.createMedication(data)` inserts the
row with a fresh id, applying the `active` column default `true`. -/
def Storage.createMedication (s : Storage) (d : InsertMedication) :
    Medication × Storage :=
  let m : Medication :=
    { id := s.nextMedicationId, userId := d.userId, name := d.name,
      dosage := d.dosage, frequency := d.frequency, startTime := d.startTime,
      notes := d.notes, active := d.active.getD true }
  (m, { s with medications := s.medications ++ [m],
               nextMedicationId := s.nextMedicationId + 1 })

/-- Parsed body of `PUT /api/medications/:id`: output of
`medicationSchema.partial().parse` — every column of `medicationSchema`
(id and createdAt omitted) made optional, `userId` included. -/
structure MedicationPatchBody where
  userId : Option Nat
  name : Option String
  dosage : Option String
  frequency : Option String
  startTime : Option Nat
  notes : Option (Option String)
  active : Option Bool
deriving Repr, DecidableEq

/-- Apply a validated patch to a stored medication row (fields present in
the patch overwrite the row, the rest are kept). -/
def applyMedicationPatch (m : Medication) (p : MedicationPatchBody) : Medication :=
  { m with
    userId := p.userId.getD m.userId,
    name := p.name.getD m.name,
    dosage := p.dosage.getD m.dosage,
    frequency := p.frequency.getD m.frequency,
    startTime := p.startTime.getD m.startTime,
    notes := p.notes.getD m.notes,
    active := p.active.getD m.active }

/-- Modelled from the spec: `storage.updateMedication(id, data)` merges the
patch into the row and returns the updated row, or `none` when absent. -/
def Storage.updateMedication (s : Storage) (id : Nat) (p : MedicationPatchBody) :
    Option Medication × Storage :=
  match s.getMedication id with
  | none => (none, s)
  | some m =>
    let m2 := applyMedicationPatch m p
    (some m2,
     { s with medications := updateWhere (fun x => x.id == id) m2 s.medications })

/-- Modelled from the spec: `storage.deleteMedication(id)` removes the row,
returning whether it existed. -/
def Storage.deleteMedication (s : Storage) (id : Nat) : Bool × Storage :=
  match s.getMedication id with
  | none => (false, s)
  | some _ =>
    (true, { s with medications := s.medications.filter (fun m => m.id != id) })

/-- Modelled from the spec (section 4.4): `storage.updateMedicationReminder
(id, taken, skipped)` sets the two flags on the row and returns the updated
row, or `none` when absent. -/
def Storage.updateMedicationReminder (s : Storage) (id : Nat)
    (taken skipped : Bool) : Option MedicationReminder × Storage :=
  match s.reminders.find? (fun r => r.id == id) with
  | none => (none, s)
  | some r =>
    let r2 := { r with taken := taken, skipped := skipped }
    (some r2,
     { s with reminders := updateWhere (fun x => x.id == id) r2 s.reminders })

/-- Validated insert payload for a caregiver: output of
`caregiverFormSchema.parse` with `confirmPassword` destructured away
(`src/routes.ts` line 216). -/
structure InsertCaregiver where
  username : String
  password : String
  fullName : String
  phone : Option String
  email : String
  relation : Option String
deriving Repr, DecidableEq

/-- Modelled from the spec: `storage.createCaregiver(data)` inserts the
row with a fresh id. -/
def Storage.createCaregiver (s : Storage) (d : InsertCaregiver) :
    Caregiver × Storage :=
  let c : Caregiver :=
    { id := s.nextCaregiverId, username := d.username, password := d.password,
      fullName := d.fullName, phone := d.phone, email := d.email,
      relation := d.relation }
  (c, { s with caregivers := s.caregivers ++ [c],
               nextCaregiverId := s.nextCaregiverId + 1 })

/-- Modelled from the spec: `storage.linkCaregiverToUser(data)` inserts the
join row with a fresh id. -/
def Storage.linkCaregiverToUser (s : Storage) (userId caregiverId : Nat)
    (accessLevel : String) (active : Bool) : UserCaregiver × Storage :=
  let uc : UserCaregiver :=
    { id := s.nextUserCaregiverId, userId := userId, caregiverId := caregiverId,
      accessLevel := accessLevel, active := active }
  (uc, { s with userCaregivers := s.userCaregivers ++ [uc],
                nextUserCaregiverId := s.nextUserCaregiverId + 1 })

/-- Modelled from the spec: `storage.updateCaregiverAccess(id, accessLevel,
active)` sets the two columns on the join row and returns the updated row,
or `none` when absent. -/
def Storage.updateCaregiverAccess (s : Storage) (id : Nat)
    (accessLevel : String) (active : Bool) : Option UserCaregiver × Storage :=
  match s.userCaregivers.find? (fun u => u.id == id) with
  | none => (none, s)
  | some uc =>
    let uc2 := { uc with accessLevel := accessLevel, active := active }
    (some uc2,
     { s with userCaregivers := updateWhere (fun x => x.id == id) uc2 s.userCaregivers })

/-- JSON bodies returned by the route layer (`src/routes.ts`). -/
inductive RespBody where
  | medication (m : Medication)
  | reminder (r : MedicationReminder)
  | reminders (rs : List MedicationReminder)
  | caregiverWithAccess (c : Caregiver) (accessLevel : String)
  | userCaregiver (uc : UserCaregiver)
  | apiError (msg : String)
  | validationIssues (issues : List String)
  | empty
deriving Repr, DecidableEq

/-- An HTTP response: status code and JSON body. -/
structure Response where
  status : Nat
  body : RespBody
deriving Repr, DecidableEq

/-- The medication frequency enum (`src/schema.ts` line 29). -/
def frequencyValues : List String :=
  ["daily", "twice_daily", "three_times_daily", "four_times_daily",
   "weekly", "as_needed", "other"]

/-- Raw body of `POST /api/medications` as typed JSON fields: any field may
be absent. -/
structure MedicationBody where
  userId : Option Nat
  name : Option String
  dosage : Option String
  frequency : Option String
  startTime : Option Nat
  notes : Option String
  active : Option Bool
deriving Repr, DecidableEq

/-- `medicationFormSchema.parse` (`src/schema.ts` lines 98-101): the
required not-null columns must be present and `frequency` must belong to
the enum; nullable/defaulted columns stay optional. -/
def parseMedicationForm (b : MedicationBody) :
    Except (List String) InsertMedication :=
  match b.userId, b.name, b.dosage, b.frequency, b.startTime with
  | some u, some n, some d, some f, some t =>
    if frequencyValues.contains f then
      .ok { userId := u, name := n, dosage := d, frequency := f,
            startTime := t, notes := b.notes, active := b.active }
    else .error ["Invalid enum value for frequency"]
  | _, _, _, _, _ => .error ["Required"]

/-- `medicationSchema.partial().parse` (`src/routes.ts` line 109): every
field optional, `frequency` checked against the enum when present. -/
def parseMedicationPatch (b : MedicationPatchBody) :
    Except (List String) MedicationPatchBody :=
  match b.frequency with
  | some f =>
    if frequencyValues.contains f then .ok b
    else .error ["Invalid enum value for frequency"]
  | none => .ok b

/-- Abstraction of zod's `.email()` check (`src/schema.ts` line 104); a
decidable stand-in used only as a validation gate. -/
def validEmail (s : String) : Bool := s.data.contains '@'

/-- Raw body of `POST /api/caregivers` as typed JSON fields; `accessLevel`
is read from the raw body by the route (`src/routes.ts` line 230). -/
structure CaregiverBody where
  username : Option String
  password : Option String
  confirmPassword : Option String
  fullName : Option String
  phone : Option String
  email : Option String
  relation : Option String
  accessLevel : Option String
deriving Repr, DecidableEq

/-- `caregiverFormSchema.parse` (`src/schema.ts` lines 103-110) with the
`confirmPassword` field destructured away (`src/routes.ts` line 216):
required columns present, password at least 8 characters, valid email, and
the refinement `password === confirmPassword`. -/
def parseCaregiverForm (b : CaregiverBody) :
    Except (List String) InsertCaregiver :=
  match b.username, b.password, b.confirmPassword, b.fullName, b.email with
  | some u, some p, some cp, some fn, some em =>
    if p.length < 8 then .error ["Password must be at least 8 characters"]
    else if !(validEmail em) then .error ["Please enter a valid email address"]
    else if p ≠ cp then .error ["Passwords do not match"]
    else .ok { username := u, password := p, fullName := fn,
               phone := b.phone, email := em, relation := b.relation }
  | _, _, _, _, _ => .error ["Required"]

/-- JavaScript `x || "full"` on an optional string field: an absent field
and the empty string are both falsy (`src/routes.ts` line 230). -/
def jsStringOr (o : Option String) (d : String) : String :=
  match o with
  | none => d
  | some v => if v = "" then d else v

/-- `GET /api/medications/:id` (`src/routes.ts` lines 58-74); the session
is `some uid` when `req.isAuthenticated()`. -/
def getMedicationRoute (session : Option Nat) (id : Nat) (s : Storage) :
    Response :=
  match session with
  | none => ⟨401, .apiError "Unauthorized"⟩
  | some uid =>
    match s.getMedication id with
    | none => ⟨404, .apiError "Medication not found"⟩
    | some m =>
      if m.userId ≠ uid then ⟨403, .apiError "Unauthorized access to medication"⟩
      else ⟨200, .medication m⟩

/-- `POST /api/medications` (`src/routes.ts` lines 77-92): the body's
`userId` is overwritten with the session user's id before validation. -/
def postMedicationsRoute (session : Option Nat) (b : MedicationBody)
    (s : Storage) : Response × Storage :=
  match session with
  | none => (⟨401, .apiError "Unauthorized"⟩, s)
  | some uid =>
    match parseMedicationForm { b with userId := some uid } with
    | .error issues => (⟨400, .validationIssues issues⟩, s)
    | .ok d =>
      let created := s.createMedication d
      (⟨201, .medication created.1⟩, created.2)

/-- `PUT /api/medications/:id` (`src/routes.ts` lines 95-119): fetch, 404,
ownership 403, validate 400, then update. -/
def putMedicationRoute (session : Option Nat) (id : Nat)
    (b : MedicationPatchBody) (s : Storage) : Response × Storage :=
  match session with
  | none => (⟨401, .apiError "Unauthorized"⟩, s)
  | some uid =>
    match s.getMedication id with
    | none => (⟨404, .apiError "Medication not found"⟩, s)
    | some m =>
      if m.userId ≠ uid then
        (⟨403, .apiError "Unauthorized access to medication"⟩, s)
      else
        match parseMedicationPatch b with
        | .error issues => (⟨400, .validationIssues issues⟩, s)
        | .ok p =>
          match s.updateMedication id p with
          | (some m2, s2) => (⟨200, .medication m2⟩, s2)
          | (none, s2) => (⟨200, .empty⟩, s2)

/-- `DELETE /api/medications/:id` (`src/routes.ts` lines 122-146). -/
def deleteMedicationRoute (session : Option Nat) (id : Nat) (s : Storage) :
    Response × Storage :=
  match session with
  | none => (⟨401, .apiError "Unauthorized"⟩, s)
  | some uid =>
    match s.getMedication id with
    | none => (⟨404, .apiError "Medication not found"⟩, s)
    | some m =>
      if m.userId ≠ uid then
        (⟨403, .apiError "Unauthorized access to medication"⟩, s)
      else
        match s.deleteMedication id with
        | (true, s2) => (⟨204, .empty⟩, s2)
        | (false, s2) => (⟨500, .apiError "Failed to delete medication"⟩, s2)

/-- `GET /api/medications/:id/reminders` (`src/routes.ts` lines 153-172). -/
def getMedicationRemindersRoute (session : Option Nat) (id : Nat)
    (s : Storage) : Response :=
  match session with
  | none => ⟨401, .apiError "Unauthorized"⟩
  | some uid =>
    match s.getMedication id with
    | none => ⟨404, .apiError "Medication not found"⟩
    | some m =>
      if m.userId ≠ uid then ⟨403, .apiError "Unauthorized access to medication"⟩
      else ⟨200, .reminders (s.getMedicationReminders id)⟩

/-- `PUT /api/reminders/:id` (`src/routes.ts` lines 175-196): the storage
update runs first; existence (404) and medication ownership (403) are
checked only afterwards, on the already-updated row. -/
def putReminderRoute (session : Option Nat) (id : Nat) (taken skipped : Bool)
    (s : Storage) : Response × Storage :=
  match session with
  | none => (⟨401, .apiError "Unauthorized"⟩, s)
  | some uid =>
    match s.updateMedicationReminder id taken skipped with
    | (none, s1) => (⟨404, .apiError "Reminder not found"⟩, s1)
    | (some r, s1) =>
      match s1.getMedication r.medicationId with
      | none => (⟨403, .apiError "Unauthorized access to reminder"⟩, s1)
      | some m =>
        if m.userId ≠ uid then
          (⟨403, .apiError "Unauthorized access to reminder"⟩, s1)
        else (⟨200, .reminder r⟩, s1)

/-- `POST /api/caregivers` (`src/routes.ts` lines 213-246): validate form,
reject duplicate username, create caregiver, link to the session user with
`accessLevel: req.body.accessLevel || "full"` and `active: true`, return
the caregiver spread together with the link's accessLevel.
(`userCaregiverSchema.parse` on the constructed link always succeeds since
every field is supplied well-typed.) -/
def postCaregiversRoute (session : Option Nat) (b : CaregiverBody)
    (s : Storage) : Response × Storage :=
  match session with
  | none => (⟨401, .apiError "Unauthorized"⟩, s)
  | some uid =>
    match parseCaregiverForm b with
    | .error issues => (⟨400, .validationIssues issues⟩, s)
    | .ok d =>
      match s.getCaregiverByUsername d.username with
      | some _ => (⟨400, .apiError "Username already exists"⟩, s)
      | none =>
        let created := s.createCaregiver d
        let lvl := jsStringOr b.accessLevel "full"
        let linked := created.2.linkCaregiverToUser uid created.1.id lvl true
        (⟨201, .caregiverWithAccess created.1 linked.1.accessLevel⟩, linked.2)

/-- `PUT /api/caregivers/:id/access` (`src/routes.ts` lines 249-269): the
storage update runs first; existence (404) and link ownership (403) are
checked only afterwards, on the already-updated row. -/
def putCaregiverAccessRoute (session : Option Nat) (id : Nat)
    (accessLevel : String) (active : Bool) (s : Storage) :
    Response × Storage :=
  match session with
  | none => (⟨401, .apiError "Unauthorized"⟩, s)
  | some uid =>
    match s.updateCaregiverAccess id accessLevel active with
    | (none, s1) => (⟨404, .apiError "Caregiver link not found"⟩, s1)
    | (some uc, s1) =>
      if uc.userId ≠ uid then
        (⟨403, .apiError "Unauthorized access to caregiver"⟩, s1)
      else (⟨200, .userCaregiver uc⟩, s1)

theorem find?_updateWhere {α : Type} (p : α → Bool) (b : α) (l : List α)
    (a : α) (hfind : l.find? p = some a) (hb : p b = true) :
    (updateWhere p b l).find? p = some b := by
  induction l with
  | nil => simp [List.find?] at hfind
  | cons x xs ih =>
    by_cases hx : p x
    · simp [updateWhere, List.find?, hx, hb]
    · simp only [List.find?, hx] at hfind
      simpa [updateWhere, List.find?, hx] using ih hfind

/-- C8: for every existing medication whose `userId` differs from the
authenticated user's id, `GET /api/medications/:id` returns 403 with an
error body (so the medication row is not returned). -/
theorem getMedication_notOwned_403 (uid id : Nat) (s : Storage)
    (m : Medication) (hm : s.getMedication id = some m)
    (hown : m.userId ≠ uid) :
    getMedicationRoute (some uid) id s =
      ⟨403, .apiError "Unauthorized access to medication"⟩ := by
  simp [getMedicationRoute, hm, hown]

theorem getMedication_notOwned_403_witness :
    (⟨[⟨1, 2, "Aspirin", "100mg", "daily", 0, none, true⟩], [], [], [], 2, 0, 0⟩ :
        Storage).getMedication 1 =
      some ⟨1, 2, "Aspirin", "100mg", "daily", 0, none, true⟩ ∧
    (2 : Nat) ≠ 1 ∧
    getMedicationRoute (some 1) 1
        ⟨[⟨1, 2, "Aspirin", "100mg", "daily", 0, none, true⟩], [], [], [], 2, 0, 0⟩ =
      ⟨403, .apiError "Unauthorized access to medication"⟩ :=
  ⟨by decide, by decide,
   getMedication_notOwned_403 1 1
     ⟨[⟨1, 2, "Aspirin", "100mg", "daily", 0, none, true⟩], [], [], [], 2, 0, 0⟩
     ⟨1, 2, "Aspirin", "100mg", "daily", 0, none, true⟩ (by decide) (by decide)⟩

/-- C9: for ids not referring to an existing resource, every id-scoped
route (GET/PUT/DELETE medication, medication reminders listing, reminder
update, caregiver-access update), called with an authenticated session,
returns 404. -/
theorem idScoped_missing_404 (uid mid rid cid : Nat) (s : Storage)
    (b : MedicationPatchBody) (t k : Bool) (lvl : String) (act : Bool)
    (hm : s.getMedication mid = none)
    (hr : s.reminders.find? (fun r => r.id == rid) = none)
    (hc : s.userCaregivers.find? (fun u => u.id == cid) = none) :
    (getMedicationRoute (some uid) mid s).status = 404 ∧
    ((putMedicationRoute (some uid) mid b s).1).status = 404 ∧
    ((deleteMedicationRoute (some uid) mid s).1).status = 404 ∧
    (getMedicationRemindersRoute (some uid) mid s).status = 404 ∧
    ((putReminderRoute (some uid) rid t k s).1).status = 404 ∧
    ((putCaregiverAccessRoute (some uid) cid lvl act s).1).status = 404 := by
  refine ⟨?_, ?_, ?_, ?_, ?_, ?_⟩ <;>
    simp [getMedicationRoute, putMedicationRoute, deleteMedicationRoute,
      getMedicationRemindersRoute, putReminderRoute, putCaregiverAccessRoute,
      Storage.updateMedicationReminder, Storage.updateCaregiverAccess, hm, hr, hc]

theorem idScoped_missing_404_witness :
    ((⟨[], [], [], [], 0, 0, 0⟩ : Storage).getMedication 5 = none ∧
     (⟨[], [], [], [], 0, 0, 0⟩ : Storage).reminders.find?
        (fun r => r.id == 5) = none ∧
     (⟨[], [], [], [], 0, 0, 0⟩ : Storage).userCaregivers.find?
        (fun u => u.id == 5) = none) ∧
    ((getMedicationRoute (some 1) 5 ⟨[], [], [], [], 0, 0, 0⟩).status = 404 ∧
     ((putMedicationRoute (some 1) 5 ⟨none, none, none, none, none, none, none⟩
        ⟨[], [], [], [], 0, 0, 0⟩).1).status = 404 ∧
     ((deleteMedicationRoute (some 1) 5 ⟨[], [], [], [], 0, 0, 0⟩).1).status = 404 ∧
     (getMedicationRemindersRoute (some 1) 5 ⟨[], [], [], [], 0, 0, 0⟩).status = 404 ∧
     ((putReminderRoute (some 1) 5 true false ⟨[], [], [], [], 0, 0, 0⟩).1).status = 404 ∧
     ((putCaregiverAccessRoute (some 1) 5 "limited" true
        ⟨[], [], [], [], 0, 0, 0⟩).1).status = 404) :=
  ⟨⟨by decide, by decide, by decide⟩,
   idScoped_missing_404 1 5 5 5 ⟨[], [], [], [], 0, 0, 0⟩
     ⟨none, none, none, none, none, none, none⟩ true false "limited" true
     (by decide) (by decide) (by decide)⟩

theorem parseMedicationForm_userId (b : MedicationBody) (uid : Nat)
    (d : InsertMedication)
    (h : parseMedicationForm { b with userId := some uid } = .ok d) :
    d.userId = uid := by
  unfold parseMedicationForm at h
  cases hn : b.name <;> cases hdo : b.dosage <;> cases hf : b.frequency <;>
    cases ht : b.startTime <;> simp [hn, hdo, hf, ht] at h
  split at h
  · cases h with
    | refl => rfl
  · cases h

/-- C10: `POST /api/medications` overwrites any supplied `userId` with the
session user's id before validation, so every medication created through
the route has `userId` equal to the creator's id. -/
theorem postMedications_userId_is_creator (uid : Nat) (b : MedicationBody)
    (s : Storage) (resp : Response) (s2 : Storage)
    (h : postMedicationsRoute (some uid) b s = (resp, s2))
    (h201 : resp.status = 201) :
    ∃ m : Medication, resp.body = .medication m ∧ m.userId = uid ∧
      m ∈ s2.medications := by
  unfold postMedicationsRoute at h
  dsimp only at h
  cases hp : parseMedicationForm { b with userId := some uid } with
  | error issues =>
    rw [hp] at h
    cases h
    simp at h201
  | ok d =>
    rw [hp] at h
    cases h
    refine ⟨_, rfl, ?_, ?_⟩
    · simpa [Storage.createMedication] using parseMedicationForm_userId b uid d hp
    · simp [Storage.createMedication]

theorem postMedications_userId_is_creator_witness :
    postMedicationsRoute (some 1)
        ⟨some 99, some "Aspirin", some "100mg", some "daily", some 0, none, none⟩
        ⟨[], [], [], [], 0, 0, 0⟩ =
      (⟨201, .medication ⟨0, 1, "Aspirin", "100mg", "daily", 0, none, true⟩⟩,
       ⟨[⟨0, 1, "Aspirin", "100mg", "daily", 0, none, true⟩], [], [], [], 1, 0, 0⟩) ∧
    ∃ m : Medication,
      (⟨201, .medication ⟨0, 1, "Aspirin", "100mg", "daily", 0, none, true⟩⟩ :
        Response).body = .medication m ∧ m.userId = 1 ∧
      m ∈ (⟨[⟨0, 1, "Aspirin", "100mg", "daily", 0, none, true⟩], [], [], [],
            1, 0, 0⟩ : Storage).medications :=
  ⟨by decide,
   postMedications_userId_is_creator 1
     ⟨some 99, some "Aspirin", some "100mg", some "daily", some 0, none, none⟩
     ⟨[], [], [], [], 0, 0, 0⟩ _ _ (by decide) rfl⟩

theorem parseCaregiverForm_mismatch (b : CaregiverBody)
    (h : b.password ≠ b.confirmPassword) :
    ∃ e, parseCaregiverForm b = .error e := by
  unfold parseCaregiverForm
  split
  · next u p cp fn em hu hp hcp hfn he =>
      split_ifs with h1 h2 h3
      · exact ⟨_, rfl⟩
      · exact ⟨_, rfl⟩
      · exact ⟨_, rfl⟩
      · rw [not_not] at h3
        rw [hp, hcp, h3] at h
        exact absurd rfl h
  all_goals exact ⟨_, rfl⟩

theorem parseCaregiverForm_ok_fields (b : CaregiverBody) (d : InsertCaregiver)
    (h : parseCaregiverForm b = .ok d) :
    b.username = some d.username ∧ b.password = some d.password := by
  unfold parseCaregiverForm at h
  split at h
  · next u p cp fn em hu hp hcp hfn he =>
      split_ifs at h
      cases h
      exact ⟨hu, hp⟩
  · next => cases h

/-- C3: a `POST /api/caregivers` request whose password differs from its
confirmPassword fails validation with a 400 issue list, and the storage
state is unchanged — no caregiver record and no user-caregiver link is
created. -/
theorem postCaregivers_passwordMismatch_400 (uid : Nat) (b : CaregiverBody)
    (s : Storage) (h : b.password ≠ b.confirmPassword) :
    ∃ issues, postCaregiversRoute (some uid) b s =
      (⟨400, .validationIssues issues⟩, s) := by
  obtain ⟨e, he⟩ := parseCaregiverForm_mismatch b h
  exact ⟨e, by simp [postCaregiversRoute, he]⟩

theorem postCaregivers_passwordMismatch_400_witness :
    (some "password123" : Option String) ≠ some "different1" ∧
    ∃ issues, postCaregiversRoute (some 1)
        ⟨some "cg1", some "password123", some "different1", some "Care Giver",
         none, some "cg@example.com", none, none⟩
        ⟨[], [], [], [], 0, 0, 0⟩ =
      (⟨400, .validationIssues issues⟩, ⟨[], [], [], [], 0, 0, 0⟩) :=
  ⟨by decide,
   postCaregivers_passwordMismatch_400 1
     ⟨some "cg1", some "password123", some "different1", some "Care Giver",
      none, some "cg@example.com", none, none⟩
     ⟨[], [], [], [], 0, 0, 0⟩ (by decide)⟩

/-- C6: a `POST /api/caregivers` request whose username equals an existing
caregiver's username answers 400 and leaves the storage state unchanged,
so no second caregiver record with that username is created. -/
theorem postCaregivers_duplicateUsername_400 (uid : Nat) (b : CaregiverBody)
    (s : Storage) (u : String) (hu : b.username = some u)
    (hex : ∃ c ∈ s.caregivers, c.username = u) :
    (postCaregiversRoute (some uid) b s).1.status = 400 ∧
    (postCaregiversRoute (some uid) b s).2 = s := by
  unfold postCaregiversRoute
  dsimp only
  cases hp : parseCaregiverForm b with
  | error issues => simp
  | ok d =>
    have hdu : d.username = u := by
      have h2 := (parseCaregiverForm_ok_fields b d hp).1
      rw [hu] at h2
      injection h2 with h3
      exact h3.symm
    have hsome : ∃ c2, s.getCaregiverByUsername d.username = some c2 := by
      rw [Storage.getCaregiverByUsername, hdu]
      have h4 : (s.caregivers.find? (fun c => c.username == u)).isSome := by
        rw [List.find?_isSome]
        obtain ⟨c, hc, hcu⟩ := hex
        exact ⟨c, hc, by simp [hcu]⟩
      exact Option.isSome_iff_exists.mp h4
    obtain ⟨c2, hc2⟩ := hsome
    simp [hc2]

theorem postCaregivers_duplicateUsername_400_witness :
    ((⟨some "cg1", some "password123", some "password123", some "Second CG",
       none, some "cg2@example.com", none, none⟩ :
        CaregiverBody).username = some "cg1" ∧
     ∃ c ∈ (⟨[], [], [⟨0, "cg1", "password123", "First CG", none,
                       "cg1@example.com", none⟩], [], 0, 1, 0⟩ :
              Storage).caregivers, c.username = "cg1") ∧
    (postCaregiversRoute (some 1)
        ⟨some "cg1", some "password123", some "password123", some "Second CG",
         none, some "cg2@example.com", none, none⟩
        ⟨[], [], [⟨0, "cg1", "password123", "First CG", none,
                   "cg1@example.com", none⟩], [], 0, 1, 0⟩).1.status = 400 ∧
    (postCaregiversRoute (some 1)
        ⟨some "cg1", some "password123", some "password123", some "Second CG",
         none, some "cg2@example.com", none, none⟩
        ⟨[], [], [⟨0, "cg1", "password123", "First CG", none,
                   "cg1@example.com", none⟩], [], 0, 1, 0⟩).2 =
      ⟨[], [], [⟨0, "cg1", "password123", "First CG", none,
                 "cg1@example.com", none⟩], [], 0, 1, 0⟩ :=
  ⟨⟨by decide,
    ⟨⟨0, "cg1", "password123", "First CG", none, "cg1@example.com", none⟩,
     by decide, by decide⟩⟩,
   postCaregivers_duplicateUsername_400 1
     ⟨some "cg1", some "password123", some "password123", some "Second CG",
      none, some "cg2@example.com", none, none⟩
     ⟨[], [], [⟨0, "cg1", "password123", "First CG", none,
                "cg1@example.com", none⟩], [], 0, 1, 0⟩
     "cg1" (by decide)
     ⟨⟨0, "cg1", "password123", "First CG", none, "cg1@example.com", none⟩,
      by decide, by decide⟩⟩

/-- C4: every successful `POST /api/caregivers` answers 201 with the
stored caregiver record spread together with the link's accessLevel, and
that record carries the caregiver's stored password field — the submitted
password is returned to the client. -/
theorem postCaregivers_response_exposes_password (uid : Nat)
    (b : CaregiverBody) (s : Storage) (resp : Response) (s2 : Storage)
    (h : postCaregiversRoute (some uid) b s = (resp, s2))
    (h201 : resp.status = 201) :
    ∃ c lvl, resp.body = .caregiverWithAccess c lvl ∧
      b.password = some c.password ∧ c ∈ s2.caregivers := by
  unfold postCaregiversRoute at h
  dsimp only at h
  cases hp : parseCaregiverForm b with
  | error issues =>
    rw [hp] at h
    cases h
    simp at h201
  | ok d =>
    rw [hp] at h
    dsimp only at h
    cases hg : s.getCaregiverByUsername d.username with
    | some c0 =>
      rw [hg] at h
      cases h
      simp at h201
    | none =>
      rw [hg] at h
      cases h
      refine ⟨_, _, rfl, ?_, ?_⟩
      · exact (parseCaregiverForm_ok_fields b d hp).2
      · simp [Storage.linkCaregiverToUser, Storage.createCaregiver]

theorem postCaregivers_response_exposes_password_witness :
    postCaregiversRoute (some 1)
        ⟨some "cg1", some "password123", some "password123", some "Care Giver",
         none, some "cg@example.com", none, none⟩
        ⟨[], [], [], [], 0, 0, 0⟩ =
      (⟨201, .caregiverWithAccess
          ⟨0, "cg1", "password123", "Care Giver", none, "cg@example.com", none⟩
          "full"⟩,
       ⟨[], [], [⟨0, "cg1", "password123", "Care Giver", none,
                  "cg@example.com", none⟩],
        [⟨0, 1, 0, "full", true⟩], 0, 1, 1⟩) ∧
    ∃ c lvl,
      (⟨201, .caregiverWithAccess
          ⟨0, "cg1", "password123", "Care Giver", none, "cg@example.com", none⟩
          "full"⟩ : Response).body = .caregiverWithAccess c lvl ∧
      (⟨some "cg1", some "password123", some "password123", some "Care Giver",
        none, some "cg@example.com", none, none⟩ :
          CaregiverBody).password = some c.password ∧
      c ∈ (⟨[], [], [⟨0, "cg1", "password123", "Care Giver", none,
                      "cg@example.com", none⟩],
            [⟨0, 1, 0, "full", true⟩], 0, 1, 1⟩ : Storage).caregivers :=
  ⟨by decide,
   postCaregivers_response_exposes_password 1
     ⟨some "cg1", some "password123", some "password123", some "Care Giver",
      none, some "cg@example.com", none, none⟩
     ⟨[], [], [], [], 0, 0, 0⟩ _ _ (by decide) rfl⟩

/-- C7 counterexample: the claim says the link's accessLevel equals the
request's accessLevel whenever one is given; submitting the (given) empty
string yields a 201 whose link carries accessLevel "full", because the
route computes it with JavaScript `req.body.accessLevel || "full"`. -/
theorem postCaregivers_accessLevel_counterexample :
    (⟨some "cg1", some "password123", some "password123", some "Care Giver",
      none, some "cg@example.com", none, some ""⟩ :
        CaregiverBody).accessLevel = some "" ∧
    (postCaregiversRoute (some 1)
        ⟨some "cg1", some "password123", some "password123", some "Care Giver",
         none, some "cg@example.com", none, some ""⟩
        ⟨[], [], [], [], 0, 0, 0⟩).1.status = 201 ∧
    (postCaregiversRoute (some 1)
        ⟨some "cg1", some "password123", some "password123", some "Care Giver",
         none, some "cg@example.com", none, some ""⟩
        ⟨[], [], [], [], 0, 0, 0⟩).2.userCaregivers.map
      (fun uc => uc.accessLevel) = ["full"] := by
  refine ⟨rfl, ?_, ?_⟩ <;> decide

/-- C7 (amended): every successful `POST /api/caregivers` creates a
UserCaregiver join record linking the session user to the new caregiver
with `active = true` and accessLevel equal to the request's accessLevel
when given and non-empty, otherwise "full" (JavaScript `||` treats the
empty string like an absent field), and the 201 body is the caregiver
record merged with that accessLevel. -/
theorem postCaregivers_creates_link (uid : Nat) (b : CaregiverBody)
    (s : Storage) (resp : Response) (s2 : Storage)
    (h : postCaregiversRoute (some uid) b s = (resp, s2))
    (h201 : resp.status = 201) :
    ∃ c uc, resp.body = .caregiverWithAccess c uc.accessLevel ∧
      uc ∈ s2.userCaregivers ∧ c ∈ s2.caregivers ∧
      uc.userId = uid ∧ uc.caregiverId = c.id ∧ uc.active = true ∧
      uc.accessLevel = jsStringOr b.accessLevel "full" := by
  unfold postCaregiversRoute at h
  dsimp only at h
  cases hp : parseCaregiverForm b with
  | error issues =>
    rw [hp] at h
    cases h
    simp at h201
  | ok d =>
    rw [hp] at h
    dsimp only at h
    cases hg : s.getCaregiverByUsername d.username with
    | some c0 =>
      rw [hg] at h
      cases h
      simp at h201
    | none =>
      rw [hg] at h
      cases h
      refine ⟨_, _, rfl, ?_, ?_, rfl, rfl, rfl, rfl⟩
      · simp [Storage.linkCaregiverToUser, Storage.createCaregiver]
      · simp [Storage.linkCaregiverToUser, Storage.createCaregiver]

theorem postCaregivers_creates_link_witness :
    postCaregiversRoute (some 1)
        ⟨some "cg1", some "password123", some "password123", some "Care Giver",
         none, some "cg@example.com", none, some "limited"⟩
        ⟨[], [], [], [], 0, 0, 0⟩ =
      (⟨201, .caregiverWithAccess
          ⟨0, "cg1", "password123", "Care Giver", none, "cg@example.com", none⟩
          "limited"⟩,
       ⟨[], [], [⟨0, "cg1", "password123", "Care Giver", none,
                  "cg@example.com", none⟩],
        [⟨0, 1, 0, "limited", true⟩], 0, 1, 1⟩) ∧
    ∃ c uc,
      (⟨201, .caregiverWithAccess
          ⟨0, "cg1", "password123", "Care Giver", none, "cg@example.com", none⟩
          "limited"⟩ : Response).body = .caregiverWithAccess c uc.accessLevel ∧
      uc ∈ (⟨[], [], [⟨0, "cg1", "password123", "Care Giver", none,
                       "cg@example.com", none⟩],
             [⟨0, 1, 0, "limited", true⟩], 0, 1, 1⟩ : Storage).userCaregivers ∧
      c ∈ (⟨[], [], [⟨0, "cg1", "password123", "Care Giver", none,
                      "cg@example.com", none⟩],
            [⟨0, 1, 0, "limited", true⟩], 0, 1, 1⟩ : Storage).caregivers ∧
      uc.userId = 1 ∧ uc.caregiverId = c.id ∧ uc.active = true ∧
      uc.accessLevel = jsStringOr
        (⟨some "cg1", some "password123", some "password123", some "Care Giver",
          none, some "cg@example.com", none, some "limited"⟩ :
            CaregiverBody).accessLevel "full" :=
  ⟨by decide,
   postCaregivers_creates_link 1
     ⟨some "cg1", some "password123", some "password123", some "Care Giver",
      none, some "cg@example.com", none, some "limited"⟩
     ⟨[], [], [], [], 0, 0, 0⟩ _ _ (by decide) rfl⟩

/-- C1 counterexample: the claim says a reminder owned through another
user's medication is left unmodified by `PUT /api/reminders/:id`; in the
code the storage update runs before the ownership check, so the 403 answer
comes back with the reminder's `taken` flag already flipped. -/
theorem putReminder_notOwned_modifies_counterexample :
    (putReminderRoute (some 1) 1 true false
        ⟨[⟨1, 2, "Aspirin", "100mg", "daily", 0, none, true⟩],
         [⟨1, 1, 8, false, none, false⟩], [], [], 2, 0, 0⟩).1.status = 403 ∧
    ((⟨[⟨1, 2, "Aspirin", "100mg", "daily", 0, none, true⟩],
       [⟨1, 1, 8, false, none, false⟩], [], [], 2, 0, 0⟩ :
        Storage).reminders.map (fun r => r.taken)) = [false] ∧
    ((putReminderRoute (some 1) 1 true false
        ⟨[⟨1, 2, "Aspirin", "100mg", "daily", 0, none, true⟩],
         [⟨1, 1, 8, false, none, false⟩], [], [], 2, 0, 0⟩).2.reminders.map
      (fun r => r.taken)) = [true] := by
  refine ⟨?_, ?_, ?_⟩ <;> decide

/-- C1 (amended): `PUT /api/reminders/:id` on a reminder whose owning
medication belongs to another user returns 403, but the reminder's stored
state has already been updated to the request's `taken`/`skipped` values —
the route is update-then-verify, not read-then-verify-then-no-op. -/
theorem putReminder_notOwned_403_updated (uid rid : Nat) (t k : Bool)
    (s : Storage) (r : MedicationReminder) (m : Medication)
    (hr : s.reminders.find? (fun x => x.id == rid) = some r)
    (hm : s.getMedication r.medicationId = some m)
    (hown : m.userId ≠ uid) :
    (putReminderRoute (some uid) rid t k s).1 =
      ⟨403, .apiError "Unauthorized access to reminder"⟩ ∧
    (putReminderRoute (some uid) rid t k s).2.reminders.find?
        (fun x => x.id == rid) = some { r with taken := t, skipped := k } := by
  have hm2 : s.medications.find? (fun x => x.id == r.medicationId) = some m := by
    simpa [Storage.getMedication] using hm
  have hps : (fun x : MedicationReminder => x.id == rid)
      { r with taken := t, skipped := k } = true := by
    simpa using List.find?_some hr
  have hupd := find?_updateWhere (fun x : MedicationReminder => x.id == rid)
    { r with taken := t, skipped := k } s.reminders r hr hps
  refine ⟨?_, ?_⟩ <;>
    simp [putReminderRoute, Storage.updateMedicationReminder, hr,
      Storage.getMedication, hm2, hown, hupd]

theorem putReminder_notOwned_403_updated_witness :
    ((⟨[⟨1, 2, "Aspirin", "100mg", "daily", 0, none, true⟩],
       [⟨1, 1, 8, false, none, false⟩], [], [], 2, 0, 0⟩ :
        Storage).reminders.find? (fun x => x.id == 1) =
      some ⟨1, 1, 8, false, none, false⟩ ∧
     (⟨[⟨1, 2, "Aspirin", "100mg", "daily", 0, none, true⟩],
       [⟨1, 1, 8, false, none, false⟩], [], [], 2, 0, 0⟩ :
        Storage).getMedication 1 =
      some ⟨1, 2, "Aspirin", "100mg", "daily", 0, none, true⟩ ∧
     (2 : Nat) ≠ 1) ∧
    (putReminderRoute (some 1) 1 true false
        ⟨[⟨1, 2, "Aspirin", "100mg", "daily", 0, none, true⟩],
         [⟨1, 1, 8, false, none, false⟩], [], [], 2, 0, 0⟩).1 =
      ⟨403, .apiError "Unauthorized access to reminder"⟩ ∧
    (putReminderRoute (some 1) 1 true false
        ⟨[⟨1, 2, "Aspirin", "100mg", "daily", 0, none, true⟩],
         [⟨1, 1, 8, false, none, false⟩], [], [], 2, 0, 0⟩).2.reminders.find?
        (fun x => x.id == 1) = some ⟨1, 1, 8, true, none, false⟩ :=
  ⟨⟨by decide, by decide, by decide⟩,
   putReminder_notOwned_403_updated 1 1 true false
     ⟨[⟨1, 2, "Aspirin", "100mg", "daily", 0, none, true⟩],
      [⟨1, 1, 8, false, none, false⟩], [], [], 2, 0, 0⟩
     ⟨1, 1, 8, false, none, false⟩
     ⟨1, 2, "Aspirin", "100mg", "daily", 0, none, true⟩
     (by decide) (by decide) (by decide)⟩

/-- C2 counterexample: the claim says no storage write occurs before the
ownership check succeeds on any protected route; `PUT
/api/caregivers/:id/access` on a link owned by another user returns 403
with the link's accessLevel and active flag already overwritten. -/
theorem putCaregiverAccess_writesFirst_counterexample :
    (putCaregiverAccessRoute (some 1) 1 "read-only" false
        ⟨[], [], [], [⟨1, 2, 7, "full", true⟩], 0, 0, 2⟩).1.status = 403 ∧
    ((⟨[], [], [], [⟨1, 2, 7, "full", true⟩], 0, 0, 2⟩ :
        Storage).userCaregivers.map (fun uc => uc.accessLevel)) = ["full"] ∧
    ((putCaregiverAccessRoute (some 1) 1 "read-only" false
        ⟨[], [], [], [⟨1, 2, 7, "full", true⟩], 0, 0, 2⟩).2.userCaregivers.map
      (fun uc => uc.accessLevel)) = ["read-only"] := by
  refine ⟨?_, ?_, ?_⟩ <;> decide

/-- Store exercising every branch of the route-ordering contract:
medication 3 is owned by user 2, medication 4 by user 1, id 5 is absent
from every table, reminder 2 belongs to medication 3, and caregiver link 4
belongs to user 6. -/
def demoStore : Storage :=
  ⟨[⟨3, 2, "Ibuprofen", "200mg", "daily", 0, none, true⟩,
    ⟨4, 1, "Zyrtec", "10mg", "daily", 0, none, true⟩],
   [⟨2, 3, 8, false, none, false⟩], [],
   [⟨4, 6, 2, "full", true⟩], 10, 0, 5⟩

/-- Empty medication patch body. -/
def demoPatchEmpty : MedicationPatchBody := ⟨none, none, none, none, none, none, none⟩

/-- Medication patch body rejected by validation: bad frequency. -/
def demoPatchInvalid : MedicationPatchBody :=
  ⟨none, none, none, some "hourly", none, none, none⟩

/-- Medication patch body accepted by validation: rename only. -/
def demoPatchValid : MedicationPatchBody :=
  ⟨none, some "Zyrtec XR", none, none, none, none, none⟩

/-- Medication creation body rejected by validation: required fields absent. -/
def demoPostInvalid : MedicationBody := ⟨none, none, none, none, none, none, none⟩

/-- Medication creation body accepted by validation. -/
def demoPostValid : MedicationBody :=
  ⟨none, some "Aspirin", some "100mg", some "daily", some 0, none, none⟩

/-- C2 (amended): the authentication check comes first on every route (401
with no write when there is no session); the id-scoped medication routes
then follow fetch → 404 if absent → 403 on ownership mismatch → body
validation (400) → persistence, each rejection leaving storage unchanged
whatever the body, with the persistence call running only once every check
has passed, and `POST /api/medications` validates before persisting; but
`PUT /api/reminders/:id` and `PUT /api/caregivers/:id/access` run the
mutating persistence call first, on the raw body with no schema
validation, and check existence (404) and ownership (403) only afterwards,
so their write persists even when 403 is returned. -/
theorem routeOrdering_contract
    (uid idA : Nat) (bA : MedicationPatchBody) (bPost : MedicationBody)
    (sA sB : Storage) (idB : Nat) (bB : MedicationPatchBody)
    (sC : Storage) (idC : Nat) (bC : MedicationPatchBody) (mC : Medication)
    (sD : Storage) (idD : Nat) (bD : MedicationPatchBody) (mD : Medication)
    (issD : List String)
    (sE : Storage) (idE : Nat) (bE : MedicationPatchBody) (mE : Medication)
    (bF : MedicationBody) (issF : List String)
    (sG : Storage) (bG : MedicationBody) (dG : InsertMedication)
    (sH : Storage) (idH : Nat) (tH kH : Bool) (rH : MedicationReminder)
    (mH : Medication)
    (sI : Storage) (idI : Nat) (lvlI : String) (actI : Bool)
    (ucI : UserCaregiver)
    (hB : sB.getMedication idB = none)
    (hB2 : sB.reminders.find? (fun x => x.id == idB) = none)
    (hB3 : sB.userCaregivers.find? (fun x => x.id == idB) = none)
    (hC : sC.getMedication idC = some mC) (hCo : mC.userId ≠ uid)
    (hD : sD.getMedication idD = some mD) (hDo : mD.userId = uid)
    (hDv : parseMedicationPatch bD = .error issD)
    (hE : sE.getMedication idE = some mE) (hEo : mE.userId = uid)
    (hEv : parseMedicationPatch bE = .ok bE)
    (hF : parseMedicationForm { bF with userId := some uid } = .error issF)
    (hG : parseMedicationForm { bG with userId := some uid } = .ok dG)
    (hH : sH.reminders.find? (fun x => x.id == idH) = some rH)
    (hHm : sH.getMedication rH.medicationId = some mH)
    (hHo : mH.userId ≠ uid)
    (hI : sI.userCaregivers.find? (fun x => x.id == idI) = some ucI)
    (hIo : ucI.userId ≠ uid) :
    (getMedicationRoute none idA sA = ⟨401, .apiError "Unauthorized"⟩ ∧
     postMedicationsRoute none bPost sA = (⟨401, .apiError "Unauthorized"⟩, sA) ∧
     putMedicationRoute none idA bA sA = (⟨401, .apiError "Unauthorized"⟩, sA) ∧
     deleteMedicationRoute none idA sA = (⟨401, .apiError "Unauthorized"⟩, sA) ∧
     getMedicationRemindersRoute none idA sA = ⟨401, .apiError "Unauthorized"⟩ ∧
     putReminderRoute none idA tH kH sA = (⟨401, .apiError "Unauthorized"⟩, sA) ∧
     putCaregiverAccessRoute none idA lvlI actI sA =
       (⟨401, .apiError "Unauthorized"⟩, sA)) ∧
    (getMedicationRoute (some uid) idB sB =
       ⟨404, .apiError "Medication not found"⟩ ∧
     putMedicationRoute (some uid) idB bB sB =
       (⟨404, .apiError "Medication not found"⟩, sB) ∧
     deleteMedicationRoute (some uid) idB sB =
       (⟨404, .apiError "Medication not found"⟩, sB) ∧
     getMedicationRemindersRoute (some uid) idB sB =
       ⟨404, .apiError "Medication not found"⟩ ∧
     putReminderRoute (some uid) idB tH kH sB =
       (⟨404, .apiError "Reminder not found"⟩, sB) ∧
     putCaregiverAccessRoute (some uid) idB lvlI actI sB =
       (⟨404, .apiError "Caregiver link not found"⟩, sB)) ∧
    (getMedicationRoute (some uid) idC sC =
       ⟨403, .apiError "Unauthorized access to medication"⟩ ∧
     putMedicationRoute (some uid) idC bC sC =
       (⟨403, .apiError "Unauthorized access to medication"⟩, sC) ∧
     deleteMedicationRoute (some uid) idC sC =
       (⟨403, .apiError "Unauthorized access to medication"⟩, sC) ∧
     getMedicationRemindersRoute (some uid) idC sC =
       ⟨403, .apiError "Unauthorized access to medication"⟩) ∧
    (putMedicationRoute (some uid) idD bD sD =
       (⟨400, .validationIssues issD⟩, sD) ∧
     postMedicationsRoute (some uid) bF sG =
       (⟨400, .validationIssues issF⟩, sG)) ∧
    (putMedicationRoute (some uid) idE bE sE =
       (⟨200, .medication (applyMedicationPatch mE bE)⟩,
        { sE with medications := (updateWhere (fun x => x.id == idE)
            (applyMedicationPatch mE bE) sE.medications) }) ∧
     deleteMedicationRoute (some uid) idE sE =
       (⟨204, .empty⟩,
        { sE with medications := sE.medications.filter (fun x => x.id != idE) }) ∧
     postMedicationsRoute (some uid) bG sG =
       (⟨201, .medication (sG.createMedication dG).1⟩,
        (sG.createMedication dG).2)) ∧
    ((putReminderRoute (some uid) idH tH kH sH).1 =
       ⟨403, .apiError "Unauthorized access to reminder"⟩ ∧
     (putReminderRoute (some uid) idH tH kH sH).2.reminders.find?
         (fun x => x.id == idH) =
       some { rH with taken := tH, skipped := kH } ∧
     (putCaregiverAccessRoute (some uid) idI lvlI actI sI).1 =
       ⟨403, .apiError "Unauthorized access to caregiver"⟩ ∧
     (putCaregiverAccessRoute (some uid) idI lvlI actI sI).2.userCaregivers.find?
         (fun x => x.id == idI) =
       some { ucI with accessLevel := lvlI, active := actI }) := by
  have hpsH : (fun x : MedicationReminder => x.id == idH)
      { rH with taken := tH, skipped := kH } = true := by
    simpa using List.find?_some hH
  have hupdH := find?_updateWhere (fun x : MedicationReminder => x.id == idH)
    { rH with taken := tH, skipped := kH } sH.reminders rH hH hpsH
  have hHm2 : sH.medications.find? (fun x => x.id == rH.medicationId) =
      some mH := by
    simpa [Storage.getMedication] using hHm
  have hpsI : (fun x : UserCaregiver => x.id == idI)
      { ucI with accessLevel := lvlI, active := actI } = true := by
    simpa using List.find?_some hI
  have hupdI := find?_updateWhere (fun x : UserCaregiver => x.id == idI)
    { ucI with accessLevel := lvlI, active := actI } sI.userCaregivers ucI hI hpsI
  refine ⟨⟨rfl, rfl, rfl, rfl, rfl, rfl, rfl⟩, ⟨?_, ?_, ?_, ?_, ?_, ?_⟩,
    ⟨?_, ?_, ?_, ?_⟩, ⟨?_, ?_⟩, ⟨?_, ?_, ?_⟩, ⟨?_, ?_, ?_, ?_⟩⟩
  · simp [getMedicationRoute, hB]
  · simp [putMedicationRoute, hB]
  · simp [deleteMedicationRoute, hB]
  · simp [getMedicationRemindersRoute, hB]
  · simp [putReminderRoute, Storage.updateMedicationReminder, hB2]
  · simp [putCaregiverAccessRoute, Storage.updateCaregiverAccess, hB3]
  · simp [getMedicationRoute, hC, hCo]
  · simp [putMedicationRoute, hC, hCo]
  · simp [deleteMedicationRoute, hC, hCo]
  · simp [getMedicationRemindersRoute, hC, hCo]
  · simp [putMedicationRoute, hD, hDo, hDv]
  · simp [postMedicationsRoute, hF]
  · simp [putMedicationRoute, hE, hEo, hEv, Storage.updateMedication]
  · simp [deleteMedicationRoute, hE, hEo, Storage.deleteMedication]
  · simp [postMedicationsRoute, hG]
  · simp [putReminderRoute, Storage.updateMedicationReminder, hH,
      Storage.getMedication, hHm2, hHo]
  · simp [putReminderRoute, Storage.updateMedicationReminder, hH,
      Storage.getMedication, hHm2, hHo, hupdH]
  · simp [putCaregiverAccessRoute, Storage.updateCaregiverAccess, hI, hIo]
  · simp [putCaregiverAccessRoute, Storage.updateCaregiverAccess, hI, hIo, hupdI]

theorem routeOrdering_contract_witness :
    (demoStore.getMedication 5 = none ∧
     demoStore.reminders.find? (fun x => x.id == 5) = none ∧
     demoStore.userCaregivers.find? (fun x => x.id == 5) = none ∧
     demoStore.getMedication 3 =
       some ⟨3, 2, "Ibuprofen", "200mg", "daily", 0, none, true⟩ ∧
     (2 : Nat) ≠ 1 ∧
     demoStore.getMedication 4 =
       some ⟨4, 1, "Zyrtec", "10mg", "daily", 0, none, true⟩ ∧
     parseMedicationPatch demoPatchInvalid =
       .error ["Invalid enum value for frequency"] ∧
     parseMedicationPatch demoPatchValid = .ok demoPatchValid ∧
     parseMedicationForm { demoPostInvalid with userId := some 1 } =
       .error ["Required"] ∧
     parseMedicationForm { demoPostValid with userId := some 1 } =
       .ok ⟨1, "Aspirin", "100mg", "daily", 0, none, none⟩ ∧
     demoStore.reminders.find? (fun x => x.id == 2) =
       some ⟨2, 3, 8, false, none, false⟩ ∧
     demoStore.userCaregivers.find? (fun x => x.id == 4) =
       some ⟨4, 6, 2, "full", true⟩ ∧
     (6 : Nat) ≠ 1) ∧
    ((getMedicationRoute none 5 demoStore = ⟨401, .apiError "Unauthorized"⟩ ∧
      postMedicationsRoute none demoPostInvalid demoStore =
        (⟨401, .apiError "Unauthorized"⟩, demoStore) ∧
      putMedicationRoute none 5 demoPatchEmpty demoStore =
        (⟨401, .apiError "Unauthorized"⟩, demoStore) ∧
      deleteMedicationRoute none 5 demoStore =
        (⟨401, .apiError "Unauthorized"⟩, demoStore) ∧
      getMedicationRemindersRoute none 5 demoStore =
        ⟨401, .apiError "Unauthorized"⟩ ∧
      putReminderRoute none 5 true false demoStore =
        (⟨401, .apiError "Unauthorized"⟩, demoStore) ∧
      putCaregiverAccessRoute none 5 "limited" true demoStore =
        (⟨401, .apiError "Unauthorized"⟩, demoStore)) ∧
     (getMedicationRoute (some 1) 5 demoStore =
        ⟨404, .apiError "Medication not found"⟩ ∧
      putMedicationRoute (some 1) 5 demoPatchInvalid demoStore =
        (⟨404, .apiError "Medication not found"⟩, demoStore) ∧
      deleteMedicationRoute (some 1) 5 demoStore =
        (⟨404, .apiError "Medication not found"⟩, demoStore) ∧
      getMedicationRemindersRoute (some 1) 5 demoStore =
        ⟨404, .apiError "Medication not found"⟩ ∧
      putReminderRoute (some 1) 5 true false demoStore =
        (⟨404, .apiError "Reminder not found"⟩, demoStore) ∧
      putCaregiverAccessRoute (some 1) 5 "limited" true demoStore =
        (⟨404, .apiError "Caregiver link not found"⟩, demoStore)) ∧
     (getMedicationRoute (some 1) 3 demoStore =
        ⟨403, .apiError "Unauthorized access to medication"⟩ ∧
      putMedicationRoute (some 1) 3 demoPatchInvalid demoStore =
        (⟨403, .apiError "Unauthorized access to medication"⟩, demoStore) ∧
      deleteMedicationRoute (some 1) 3 demoStore =
        (⟨403, .apiError "Unauthorized access to medication"⟩, demoStore) ∧
      getMedicationRemindersRoute (some 1) 3 demoStore =
        ⟨403, .apiError "Unauthorized access to medication"⟩) ∧
     (putMedicationRoute (some 1) 4 demoPatchInvalid demoStore =
        (⟨400, .validationIssues ["Invalid enum value for frequency"]⟩,
         demoStore) ∧
      postMedicationsRoute (some 1) demoPostInvalid demoStore =
        (⟨400, .validationIssues ["Required"]⟩, demoStore)) ∧
     (putMedicationRoute (some 1) 4 demoPatchValid demoStore =
        (⟨200, .medication (applyMedicationPatch
           ⟨4, 1, "Zyrtec", "10mg", "daily", 0, none, true⟩ demoPatchValid)⟩,
         { demoStore with medications := (updateWhere (fun x => x.id == 4)
             (applyMedicationPatch
               ⟨4, 1, "Zyrtec", "10mg", "daily", 0, none, true⟩ demoPatchValid)
             demoStore.medications) }) ∧
      deleteMedicationRoute (some 1) 4 demoStore =
        (⟨204, .empty⟩,
         { demoStore with medications :=
             demoStore.medications.filter (fun x => x.id != 4) }) ∧
      postMedicationsRoute (some 1) demoPostValid demoStore =
        (⟨201, .medication (demoStore.createMedication
           ⟨1, "Aspirin", "100mg", "daily", 0, none, none⟩).1⟩,
         (demoStore.createMedication
           ⟨1, "Aspirin", "100mg", "daily", 0, none, none⟩).2)) ∧
     ((putReminderRoute (some 1) 2 true false demoStore).1 =
        ⟨403, .apiError "Unauthorized access to reminder"⟩ ∧
      (putReminderRoute (some 1) 2 true false demoStore).2.reminders.find?
          (fun x => x.id == 2) = some ⟨2, 3, 8, true, none, false⟩ ∧
      (putCaregiverAccessRoute (some 1) 4 "limited" true demoStore).1 =
        ⟨403, .apiError "Unauthorized access to caregiver"⟩ ∧
      (putCaregiverAccessRoute (some 1) 4 "limited" true
          demoStore).2.userCaregivers.find? (fun x => x.id == 4) =
        some ⟨4, 6, 2, "limited", true⟩)) :=
  ⟨⟨by decide, by decide, by decide, by decide, by decide, by decide,
    rfl, rfl, rfl, rfl, by decide, by decide, by decide⟩,
   routeOrdering_contract 1 5 demoPatchEmpty demoPostInvalid demoStore
     demoStore 5 demoPatchInvalid
     demoStore 3 demoPatchInvalid
     ⟨3, 2, "Ibuprofen", "200mg", "daily", 0, none, true⟩
     demoStore 4 demoPatchInvalid
     ⟨4, 1, "Zyrtec", "10mg", "daily", 0, none, true⟩
     ["Invalid enum value for frequency"]
     demoStore 4 demoPatchValid
     ⟨4, 1, "Zyrtec", "10mg", "daily", 0, none, true⟩
     demoPostInvalid ["Required"]
     demoStore demoPostValid ⟨1, "Aspirin", "100mg", "daily", 0, none, none⟩
     demoStore 2 true false ⟨2, 3, 8, false, none, false⟩
     ⟨3, 2, "Ibuprofen", "200mg", "daily", 0, none, true⟩
     demoStore 4 "limited" true ⟨4, 6, 2, "full", true⟩
     (by decide) (by decide) (by decide) (by decide) (by decide) (by decide)
     (by decide) rfl (by decide) (by decide) rfl rfl rfl
     (by decide) (by decide) (by decide) (by decide) (by decide)⟩

/-- C5: `PUT /api/medications/:id` validates against the partial insert
schema, which still contains `userId`; an owner submitting a body whose
only field is a different `userId` gets 200, the row is reassigned to the
other user, and the original owner's subsequent `GET` on it answers 403. -/
theorem putMedication_userId_reassignment (uid v mid : Nat) (s : Storage)
    (m : Medication) (hm : s.getMedication mid = some m)
    (hown : m.userId = uid) (hne : v ≠ uid) :
    (putMedicationRoute (some uid) mid
        ⟨some v, none, none, none, none, none, none⟩ s).1 =
      ⟨200, .medication
        (applyMedicationPatch m ⟨some v, none, none, none, none, none, none⟩)⟩ ∧
    (applyMedicationPatch m
        ⟨some v, none, none, none, none, none, none⟩).userId = v ∧
    (putMedicationRoute (some uid) mid
        ⟨some v, none, none, none, none, none, none⟩ s).2.getMedication mid =
      some (applyMedicationPatch m ⟨some v, none, none, none, none, none, none⟩) ∧
    getMedicationRoute (some uid) mid
        (putMedicationRoute (some uid) mid
          ⟨some v, none, none, none, none, none, none⟩ s).2 =
      ⟨403, .apiError "Unauthorized access to medication"⟩ := by
  have hm2 : s.medications.find? (fun x => x.id == mid) = some m := by
    simpa [Storage.getMedication] using hm
  have hps : (fun x : Medication => x.id == mid)
      (applyMedicationPatch m ⟨some v, none, none, none, none, none, none⟩) =
        true := by
    simpa [applyMedicationPatch] using List.find?_some hm2
  have hupd := find?_updateWhere (fun x : Medication => x.id == mid)
    (applyMedicationPatch m ⟨some v, none, none, none, none, none, none⟩)
    s.medications m hm2 hps
  refine ⟨?_, ?_, ?_, ?_⟩
  · simp [putMedicationRoute, hm2, hown, parseMedicationPatch,
      Storage.updateMedication, Storage.getMedication]
  · simp [applyMedicationPatch]
  · simp [putMedicationRoute, hm2, hown, parseMedicationPatch,
      Storage.updateMedication, Storage.getMedication, hupd]
  · have hnotuid : (applyMedicationPatch m
        ⟨some v, none, none, none, none, none, none⟩).userId ≠ uid := by
      simpa [applyMedicationPatch] using hne
    simp [putMedicationRoute, hm2, hown, parseMedicationPatch,
      Storage.updateMedication, getMedicationRoute, Storage.getMedication,
      hupd, hnotuid]

theorem putMedication_userId_reassignment_witness :
    ((⟨[⟨1, 1, "Aspirin", "100mg", "daily", 0, none, true⟩], [], [], [],
       2, 0, 0⟩ : Storage).getMedication 1 =
      some ⟨1, 1, "Aspirin", "100mg", "daily", 0, none, true⟩ ∧
     (1 : Nat) = 1 ∧ (2 : Nat) ≠ 1) ∧
    (putMedicationRoute (some 1) 1 ⟨some 2, none, none, none, none, none, none⟩
        ⟨[⟨1, 1, "Aspirin", "100mg", "daily", 0, none, true⟩], [], [], [],
         2, 0, 0⟩).1 =
      ⟨200, .medication (applyMedicationPatch
        ⟨1, 1, "Aspirin", "100mg", "daily", 0, none, true⟩
        ⟨some 2, none, none, none, none, none, none⟩)⟩ ∧
    (applyMedicationPatch ⟨1, 1, "Aspirin", "100mg", "daily", 0, none, true⟩
        ⟨some 2, none, none, none, none, none, none⟩).userId = 2 ∧
    (putMedicationRoute (some 1) 1 ⟨some 2, none, none, none, none, none, none⟩
        ⟨[⟨1, 1, "Aspirin", "100mg", "daily", 0, none, true⟩], [], [], [],
         2, 0, 0⟩).2.getMedication 1 =
      some (applyMedicationPatch
        ⟨1, 1, "Aspirin", "100mg", "daily", 0, none, true⟩
        ⟨some 2, none, none, none, none, none, none⟩) ∧
    getMedicationRoute (some 1) 1
        (putMedicationRoute (some 1) 1
          ⟨some 2, none, none, none, none, none, none⟩
          ⟨[⟨1, 1, "Aspirin", "100mg", "daily", 0, none, true⟩], [], [], [],
           2, 0, 0⟩).2 =
      ⟨403, .apiError "Unauthorized access to medication"⟩ :=
  ⟨⟨by decide, rfl, by decide⟩,
   putMedication_userId_reassignment 1 2 1
     ⟨[⟨1, 1, "Aspirin", "100mg", "daily", 0, none, true⟩], [], [], [], 2, 0, 0⟩
     ⟨1, 1, "Aspirin", "100mg", "daily", 0, none, true⟩
     (by decide) (by decide) (by decide)⟩

end MemHeav
